import Mathlib

/-!
# Verification of the Uniswap-V3 swap scripts

Shallow embedding of the two scripts of this repository:
`src/index.js` (the fuller variant) and `src/old_scripts/index2.js`
(the older variant).  JavaScript `BigInt` values are modelled as `ℤ`
(with `Int.tdiv` for BigInt `/`, which truncates toward zero), token
amounts in smallest units as `ℕ`, and JavaScript `Number` expressions
occurring inside `Math.floor(...)` as exact rational arithmetic over `ℚ`.
Chain interactions (balance reads, allowance reads, factory lookups,
quoter static calls, transaction submissions) are modelled as explicit
state and event traces.

The file is organised as definitions first (the embedding), then the
theorems about them.
-/

namespace SwapScript

/-! ## Definitions: slippage computation of the fuller variant (src/index.js) -/

/-- Line 623 of `src/index.js`:
`const slippageFactor = BigInt(Math.floor((1 - SLIPPAGE_TOLERANCE) * 1000));`
with the slippage tolerance `s` left as a parameter and the floating-point
expression `(1 - s) * 1000` modelled in exact rational arithmetic. -/
def slippageFactor (s : ℚ) : ℤ := ⌊(1 - s) * 1000⌋

/-- Line 624 of `src/index.js`:
`let amountOutMinimum = (quotedAmountOut * slippageFactor) / BigInt(1000);`
BigInt division truncates toward zero, hence `Int.tdiv`. -/
def amountOutMinimumRaw (s : ℚ) (quotedAmountOut : ℕ) : ℤ :=
  Int.tdiv ((quotedAmountOut : ℤ) * slippageFactor s) 1000

/-- Lines 627-631 of `src/index.js`: the zero guard
`if (amountOutMinimum === BigInt(0)) { ... amountOutMinimum = BigInt(1); }`.
The result is the minimum-output bound actually placed in the swap
parameters. -/
def amountOutMinimum (s : ℚ) (quotedAmountOut : ℕ) : ℤ :=
  if amountOutMinimumRaw s quotedAmountOut = 0 then 1
  else amountOutMinimumRaw s quotedAmountOut

/-! ## Definitions: slippage computation of the older variant
(src/old_scripts/index2.js) -/

/-- Line 447 of `src/old_scripts/index2.js`:
`const slippageFactor = BigInt(Math.floor((1 - SLIPPAGE_TOLERANCE) * 1000)) / BigInt(1000);`
Note the division is a BigInt division, performed on the factor itself. -/
def slippageFactorOld (s : ℚ) : ℤ := Int.tdiv ⌊(1 - s) * 1000⌋ 1000

/-- Line 448 of `src/old_scripts/index2.js`:
`const amountOutMinimum = (quotedAmountOut * slippageFactor) / BigInt(1);` -/
def amountOutMinimumOld (s : ℚ) (quotedAmountOut : ℕ) : ℤ :=
  Int.tdiv ((quotedAmountOut : ℤ) * slippageFactorOld s) 1

/-! ## Definitions: pool locator (src/index.js, `getPoolInfo`, lines 266-306) -/

/-- Contract addresses, modelled as natural numbers with `0` playing the
role of `ethers.ZeroAddress`. -/
abbrev Address : Type := ℕ

/-- The zero address, `ethers.ZeroAddress`. -/
def zeroAddress : Address := 0

/-- Line 271 of `src/index.js`: `const feeTiers = [500, 3000, 10000];` -/
def feeTiers : List ℕ := [500, 3000, 10000]

/-- The error taxonomy of the spec; each kind names the cause of the thrown
error (the JavaScript code wraps the message text, the kind is unchanged). -/
inductive SwapError where
  | InsufficientBalance
  | NoPoolFound
  | QuoteFailed
  | ApprovalFailed
  | SwapFailed
  | MetadataUnavailable
deriving DecidableEq, Repr

/-- One pass of the loop at lines 276-286 of `src/index.js` (and, with the
arguments swapped, lines 292-301): probe the factory for each fee tier in
list order with a fixed argument order, returning the first lookup whose
result is not the zero address together with its fee tier. -/
def findPoolIn (factory : Address → Address → ℕ → Address) (a b : Address) :
    List ℕ → Option (Address × ℕ)
  | [] => none
  | fee :: rest =>
    let address := factory a b fee
    if address ≠ zeroAddress then some (address, fee) else findPoolIn factory a b rest

/-- The pool locator `getPoolInfo`, lines 266-306 of `src/index.js`: probe
the three fee tiers with `(tokenIn, tokenOut)` argument order, then the same
tiers with the arguments reversed; fail with `NoPoolFound` (line 305) when
no lookup produced a non-zero address.  The factory is modelled as a fixed
function from `(address, address, fee)` to a pool address. -/
def getPoolInfo (factory : Address → Address → ℕ → Address) (tokenIn tokenOut : Address) :
    Except SwapError (Address × ℕ) :=
  match findPoolIn factory tokenIn tokenOut feeTiers with
  | some found => Except.ok found
  | none =>
    match findPoolIn factory tokenOut tokenIn feeTiers with
    | some found => Except.ok found
    | none => Except.error SwapError.NoPoolFound

/-- The six factory lookups of `getPoolInfo`, paired with their fee tiers,
in the order the code performs them. -/
def sixLookups (factory : Address → Address → ℕ → Address) (tokenIn tokenOut : Address) :
    List (Address × ℕ) :=
  feeTiers.map (fun fee => (factory tokenIn tokenOut fee, fee)) ++
    feeTiers.map (fun fee => (factory tokenOut tokenIn fee, fee))

/-- A concrete factory state that is not symmetric in its two address
arguments: the pair `(10, 20)` has a pool only at tier `3000`, while the
reversed pair `(20, 10)` has a pool only at tier `500`. -/
def asymFactory : Address → Address → ℕ → Address := fun a b fee =>
  if a = 10 ∧ b = 20 ∧ fee = 3000 then 1
  else if a = 20 ∧ b = 10 ∧ fee = 500 then 2
  else 0

/-- A concrete symmetric factory state. -/
def symFactory : Address → Address → ℕ → Address := fun a b fee => a * b + fee

/-! ## Definitions: approver (src/index.js, `approveToken`, lines 212-259) -/

/-- The chain interactions performed by the embedded code, in order:
reads (`metadataFetch`, `balancesRead`, `balanceCheck`, `allowanceCheck`,
`poolLookup`, `quoteCall`, `exactOutputQuoteCall`) and transaction
submissions (`approvalTx`, `swapTx`, `exactOutputSwapTx`). -/
inductive Event where
  | metadataFetch
  | balancesRead
  | balanceCheck
  | allowanceCheck
  | approvalTx
  | poolLookup
  | quoteCall
  | swapTx
  | exactOutputQuoteCall
  | exactOutputSwapTx
deriving DecidableEq, Repr

/-- The two success results of `approveToken`: line 231
(`"Already approved"`) and line 254 (an approval transaction confirmed). -/
inductive ApproveOutcome where
  | alreadyApproved
  | approved
deriving DecidableEq, Repr

/-- The wallet's view of one ERC-20 token: its balance and its allowance
toward the swap router. -/
structure TokenState where
  balance : ℕ
  allowance : ℕ
deriving DecidableEq, Repr

/-- The approver `approveToken`, lines 212-259 of `src/index.js`, as a state
transformer with an event trace: read the balance (line 219,
`checkBalance`); fail with `InsufficientBalance` when it is below the
required amount (lines 221-223); read the allowance toward the router
(line 226); return without a transaction when the allowance already covers
the amount (lines 229-232); otherwise submit `approve(router, amount)`
(lines 235-247), which per ERC-20 sets the allowance to exactly `amount`. -/
def approveToken (amount : ℕ) (st : TokenState) :
    Except SwapError ApproveOutcome × TokenState × List Event :=
  if st.balance < amount then
    (Except.error SwapError.InsufficientBalance, st, [Event.balanceCheck])
  else if amount ≤ st.allowance then
    (Except.ok ApproveOutcome.alreadyApproved, st, [Event.balanceCheck, Event.allowanceCheck])
  else
    (Except.ok ApproveOutcome.approved, { st with allowance := amount },
      [Event.balanceCheck, Event.allowanceCheck, Event.approvalTx])

/-- Number of approval transactions in an event trace. -/
def approvalTxCount (events : List Event) : ℕ := events.count Event.approvalTx

/-! ## Definitions: quote and swap parameter records (src/index.js) -/

/-- Line 24 of `src/index.js`: `const TRY_EXACT_OUTPUT = true;` -/
def TRY_EXACT_OUTPUT : Bool := true

/-- A token descriptor as built by `fetchTokenInfo` (lines 84-113); the
display-only `symbol`/`name` fields are excluded along with all logging. -/
structure TokenDescriptor where
  chainId : ℕ
  address : Address
  decimals : ℕ
deriving DecidableEq, Repr

/-- The `quoteParams` record of lines 610-616 (argument of
`quoteExactInputSingle`). -/
structure ExactInputQuoteParams where
  tokenIn : Address
  tokenOut : Address
  fee : ℕ
  amountIn : ℕ
  sqrtPriceLimitX96 : ℤ
deriving DecidableEq, Repr

/-- Lines 610-616: the exact-input quote parameters, with
`sqrtPriceLimitX96: BigInt(0)`. -/
def mkQuoteParams (tokenIn tokenOut : Address) (fee : ℕ) (amountIn : ℕ) :
    ExactInputQuoteParams :=
  { tokenIn := tokenIn, tokenOut := tokenOut, fee := fee, amountIn := amountIn,
    sqrtPriceLimitX96 := 0 }

/-- The `swapParams` record of lines 641-650 (argument of
`exactInputSingle`). -/
structure ExactInputSwapParams where
  tokenIn : Address
  tokenOut : Address
  fee : ℕ
  recipient : Address
  deadline : ℕ
  amountIn : ℕ
  amountOutMinimum : ℤ
  sqrtPriceLimitX96 : ℤ
deriving DecidableEq, Repr

/-- Lines 641-650: the exact-input swap parameters, with
`sqrtPriceLimitX96: BigInt(0)` and `deadline` ten minutes from `now`
(line 646: `Math.floor(Date.now() / 1000 + 60 * 10)`). -/
def mkSwapParams (tokenIn tokenOut : Address) (fee : ℕ) (recipient : Address)
    (now amountIn : ℕ) (amountOutMin : ℤ) : ExactInputSwapParams :=
  { tokenIn := tokenIn, tokenOut := tokenOut, fee := fee, recipient := recipient,
    deadline := now + 60 * 10, amountIn := amountIn, amountOutMinimum := amountOutMin,
    sqrtPriceLimitX96 := 0 }

/-- The `quoteParams` record of lines 392-399 inside `tryExactOutputSwap`
(argument of `quoteExactOutputSingle`). -/
structure ExactOutputQuoteParams where
  tokenIn : Address
  tokenOut : Address
  fee : ℕ
  recipient : Address
  amountOut : ℕ
  sqrtPriceLimitX96 : ℤ
deriving DecidableEq, Repr

/-- Lines 392-399: the exact-output quote parameters, with
`sqrtPriceLimitX96: BigInt(0)`. -/
def mkExactOutputQuoteParams (tokenIn tokenOut : Address) (fee : ℕ)
    (recipient : Address) (amountOut : ℕ) : ExactOutputQuoteParams :=
  { tokenIn := tokenIn, tokenOut := tokenOut, fee := fee, recipient := recipient,
    amountOut := amountOut, sqrtPriceLimitX96 := 0 }

/-- The `swapParams` record of lines 415-424 inside `tryExactOutputSwap`
(argument of `exactOutputSingle`). -/
structure ExactOutputSwapParams where
  tokenIn : Address
  tokenOut : Address
  fee : ℕ
  recipient : Address
  deadline : ℕ
  amountOut : ℕ
  amountInMaximum : ℕ
  sqrtPriceLimitX96 : ℤ
deriving DecidableEq, Repr

/-- Lines 415-424: the exact-output swap parameters, with
`sqrtPriceLimitX96: BigInt(0)` and `deadline` ten minutes from `now`
(line 420). -/
def mkExactOutputSwapParams (tokenIn tokenOut : Address) (fee : ℕ)
    (recipient : Address) (now amountOut amountInMaximum : ℕ) : ExactOutputSwapParams :=
  { tokenIn := tokenIn, tokenOut := tokenOut, fee := fee, recipient := recipient,
    deadline := now + 60 * 10, amountOut := amountOut,
    amountInMaximum := amountInMaximum, sqrtPriceLimitX96 := 0 }

/-! ## Definitions: main pipeline (src/index.js, `main`, lines 583-741) -/

/-- The chain, seen from the script: a fixed factory state, the token
metadata store, the quoter's responses (`none` models a reverting static
call) and whether each kind of swap transaction succeeds on-chain. -/
structure Chain where
  tokenInfo : Address → Option TokenDescriptor
  factory : Address → Address → ℕ → Address
  quoteExactInput : ExactInputQuoteParams → Option ℕ
  quoteExactOutput : ExactOutputQuoteParams → Option ℕ
  exactInputSwapOk : ExactInputSwapParams → Bool
  exactOutputSwapOk : ExactOutputSwapParams → Bool

/-- Line 405: `BigInt(Math.floor((1 + SLIPPAGE_TOLERANCE) * 1000))`, the
widening counterpart of `slippageFactor`, in exact rational arithmetic. -/
def slippageFactorUp (s : ℚ) : ℤ := ⌊(1 + s) * 1000⌋

/-- Line 406:
`const adjustedAmountInMaximum = (amountInMaximum * slippageFactor) / BigInt(1000);` -/
def adjustedAmountInMaximum (s : ℚ) (amountInMaximum : ℕ) : ℤ :=
  Int.tdiv ((amountInMaximum : ℤ) * slippageFactorUp s) 1000

/-- Line 696: `Number(formatBigInt(quotedAmountOut, tokenOut.decimals)) * 0.9`,
then `ethers.parseUnits(...)` at line 388: scale the quoted output down to
90%, modelled in exact arithmetic on smallest units (the JavaScript
float round-trip through display units is modelled exactly). -/
def desiredOutputAmount (quotedAmountOut : ℕ) : ℕ := quotedAmountOut * 9 / 10

/-- The exact-output fallback `tryExactOutputSwap`, lines 383-455 of
`src/index.js`: quote the exact output (line 401), widen the quoted maximum
input by the slippage tolerance (lines 405-406), approve that amount
(line 429), then submit `exactOutputSingle` (lines 432-446).  Any failure is
wrapped by the catch of lines 451-454 into the `SwapFailed` kind
(`'ExactOutputSingle swap failed'`). -/
def tryExactOutputSwap (ch : Chain) (tokenInAddr tokenOutAddr : Address) (fee : ℕ)
    (recipient : Address) (now : ℕ) (s : ℚ) (desiredOut : ℕ) (st : TokenState) :
    Except SwapError Unit × TokenState × List Event :=
  match ch.quoteExactOutput
      (mkExactOutputQuoteParams tokenInAddr tokenOutAddr fee recipient desiredOut) with
  | none => (Except.error SwapError.SwapFailed, st, [Event.exactOutputQuoteCall])
  | some amountInMaximum =>
    let adjusted := (adjustedAmountInMaximum s amountInMaximum).toNat
    match approveToken adjusted st with
    | (Except.error _, st1, acts) =>
      (Except.error SwapError.SwapFailed, st1, Event.exactOutputQuoteCall :: acts)
    | (Except.ok _, st1, acts) =>
      let sp := mkExactOutputSwapParams tokenInAddr tokenOutAddr fee recipient now
        desiredOut adjusted
      (if ch.exactOutputSwapOk sp then Except.ok () else Except.error SwapError.SwapFailed,
        st1, Event.exactOutputQuoteCall :: acts ++ [Event.exactOutputSwapTx])

/-- The pipeline `main`, lines 583-741 of `src/index.js`, as a state
transformer with an event trace over the wallet's input-token state: fetch
both tokens' metadata (lines 586-587), read the initial balances (line 592),
convert the swap amount to smallest units (line 596), approve the router
(line 601), locate the pool (line 604), quote (lines 610-619), compute the
slippage-protected minimum output (lines 623-631), submit `exactInputSingle`
(lines 641-664), and on swap failure fall back — `TRY_EXACT_OUTPUT` being
`true` — to the exact-output formulation at 90% of the quoted output
(lines 688-735). -/
def mainRun (ch : Chain) (tokenInAddr tokenOutAddr recipient : Address)
    (now swapAmount : ℕ) (s : ℚ) (st : TokenState) :
    Except SwapError Unit × TokenState × List Event :=
  match ch.tokenInfo tokenInAddr with
  | none => (Except.error SwapError.MetadataUnavailable, st, [Event.metadataFetch])
  | some tokenIn =>
    match ch.tokenInfo tokenOutAddr with
    | none =>
      (Except.error SwapError.MetadataUnavailable, st,
        [Event.metadataFetch, Event.metadataFetch])
    | some _ =>
      let amountIn := swapAmount * 10 ^ tokenIn.decimals
      match approveToken amountIn st with
      | (Except.error e, st1, acts) =>
        (Except.error e, st1,
          Event.metadataFetch :: Event.metadataFetch :: Event.balancesRead :: acts)
      | (Except.ok _, st1, acts) =>
        let tr0 := Event.metadataFetch :: Event.metadataFetch :: Event.balancesRead :: acts
        match getPoolInfo ch.factory tokenInAddr tokenOutAddr with
        | Except.error e => (Except.error e, st1, tr0 ++ [Event.poolLookup])
        | Except.ok (_, fee) =>
          match ch.quoteExactInput (mkQuoteParams tokenInAddr tokenOutAddr fee amountIn) with
          | none =>
            (Except.error SwapError.QuoteFailed, st1,
              tr0 ++ [Event.poolLookup, Event.quoteCall])
          | some quotedAmountOut =>
            let minOut := amountOutMinimum s quotedAmountOut
            let sp := mkSwapParams tokenInAddr tokenOutAddr fee recipient now amountIn minOut
            if ch.exactInputSwapOk sp then
              (Except.ok (), st1,
                tr0 ++ [Event.poolLookup, Event.quoteCall, Event.swapTx, Event.balancesRead])
            else if TRY_EXACT_OUTPUT then
              let (res, st2, acts2) := tryExactOutputSwap ch tokenInAddr tokenOutAddr fee
                recipient now s (desiredOutputAmount quotedAmountOut) st1
              (res, st2,
                tr0 ++ [Event.poolLookup, Event.quoteCall, Event.swapTx] ++ acts2 ++
                  (match res with
                   | Except.ok _ => [Event.balancesRead]
                   | Except.error _ => []))
            else
              (Except.error SwapError.SwapFailed, st1,
                tr0 ++ [Event.poolLookup, Event.quoteCall, Event.swapTx])

/-- A concrete chain with no pool for any pair: every factory lookup
returns the zero address. -/
def noPoolChain : Chain :=
  { tokenInfo := fun a => some { chainId := 11155111, address := a, decimals := 6 }
    factory := fun _ _ _ => zeroAddress
    quoteExactInput := fun _ => none
    quoteExactOutput := fun _ => none
    exactInputSwapOk := fun _ => false
    exactOutputSwapOk := fun _ => false }

/-! ## Helper lemmas -/

lemma slippageFactor_nonneg {s : ℚ} (h1 : s ≤ 1) : 0 ≤ slippageFactor s := by
  unfold slippageFactor
  have : (0 : ℚ) ≤ (1 - s) * 1000 := by nlinarith
  exact Int.floor_nonneg.mpr this

lemma slippageFactor_lt_1000 {s : ℚ} (h0 : 0 < s) : slippageFactor s < 1000 := by
  unfold slippageFactor
  by_contra hc
  push_neg at hc
  have : (1000 : ℚ) ≤ (1 - s) * 1000 := by
    calc (1000 : ℚ) = ((1000 : ℤ) : ℚ) := by norm_num
      _ ≤ (⌊(1 - s) * 1000⌋ : ℚ) := by exact_mod_cast hc
      _ ≤ (1 - s) * 1000 := Int.floor_le _
  nlinarith

lemma amountOutMinimumRaw_nonneg {s : ℚ} (h1 : s ≤ 1) (q : ℕ) :
    0 ≤ amountOutMinimumRaw s q := by
  unfold amountOutMinimumRaw
  have hq : (0 : ℤ) ≤ (q : ℤ) := Int.ofNat_nonneg q
  have hf := slippageFactor_nonneg h1
  have : (0 : ℤ) ≤ (q : ℤ) * slippageFactor s := mul_nonneg hq hf
  exact Int.tdiv_nonneg this (by norm_num)

/-- The code's value at the counterexample point of C1: at `s = 1/4096` and
`quotedAmountOut = 4096` the code computes `4096 * 999 / 1000 = 4091`. -/
lemma amountOutMinimumRaw_at_counterexample :
    amountOutMinimumRaw (1 / 4096) 4096 = 4091 := by
  unfold amountOutMinimumRaw slippageFactor
  norm_num
  rfl

lemma bne_zero_of_ne {x : ℕ} (h : ¬ x = 0) : (x != 0) = true := bne_iff_ne.mpr h

lemma bne_zero_of_eq {x : ℕ} (h : x = 0) : (x != 0) = false := by simp [h]

/-! ## Claim theorems -/

/-- C1: the claim "for every slippage tolerance `s` in `(0,1)` the computed
minimum-output bound equals `⌊quotedAmountOut * (1 - s)⌋`" fails at
`s = 1/4096`, `quotedAmountOut = 4096`: the code computes `4091`, the
exact truncated product is `4095`. -/
theorem minimumOut_not_exact_floor_counterexample :
    (0 : ℚ) < 1 / 4096 ∧ (1 : ℚ) / 4096 < 1 ∧
      amountOutMinimumRaw (1 / 4096) 4096 ≠ ⌊(4096 : ℚ) * (1 - 1 / 4096)⌋ := by
  refine ⟨by norm_num, by norm_num, ?_⟩
  rw [amountOutMinimumRaw_at_counterexample]
  norm_num

/-- C1 (amended): the computed bound equals
`trunc (quotedAmountOut * ⌊(1-s)*1000⌋ / 1000)` — the slippage tolerance is
quantized to thousandths — and it equals `⌊quotedAmountOut * (1 - s)⌋`
exactly when `1000 * s` is an integer `k` (so `s = k / 1000`). -/
theorem minimumOut_is_quantized_floor (k : ℕ) (q : ℕ) (_h0 : 0 < k) (h1 : k < 1000) :
    amountOutMinimumRaw ((k : ℚ) / 1000) q = ⌊(q : ℚ) * (1 - (k : ℚ) / 1000)⌋ := by
  have hfac : slippageFactor ((k : ℚ) / 1000) = 1000 - k := by
    unfold slippageFactor
    have : ((1 : ℚ) - (k : ℚ) / 1000) * 1000 = ((1000 - (k : ℤ) : ℤ) : ℚ) := by
      push_cast
      ring
    rw [this, Int.floor_intCast]
  unfold amountOutMinimumRaw
  rw [hfac]
  have hk : (k : ℤ) ≤ 1000 := by exact_mod_cast h1.le
  have hnn : (0 : ℤ) ≤ (q : ℤ) * (1000 - k) := by
    have : (0 : ℤ) ≤ 1000 - (k : ℤ) := by omega
    exact mul_nonneg (Int.ofNat_nonneg q) this
  rw [Int.tdiv_eq_ediv hnn (by norm_num)]
  have : (q : ℚ) * (1 - (k : ℚ) / 1000) = (((q : ℤ) * (1000 - (k : ℤ)) : ℤ) : ℚ) / ((1000 : ℕ) : ℚ) := by
    push_cast
    ring
  rw [this, Rat.floor_intCast_div_natCast]
  norm_num

/-- C1 (amended), witness at `k = 50` (`s = 0.05`), `q = 150250000`. -/
theorem minimumOut_is_quantized_floor_witness :
    amountOutMinimumRaw ((50 : ℚ) / 1000) 150250000 = ⌊(150250000 : ℚ) * (1 - (50 : ℚ) / 1000)⌋ :=
  minimumOut_is_quantized_floor 50 150250000 (by norm_num) (by norm_num)

/-- C5: for every slippage tolerance `s` in `(0,1)` and every quoted output
amount (including `0`), the minimum-output bound actually placed in the swap
parameters — the value after the zero guard of lines 627-631 — is at least
`1` smallest unit. -/
theorem minimumOut_submitted_at_least_one (s : ℚ) (q : ℕ) (_h0 : 0 < s) (h1 : s < 1) :
    1 ≤ amountOutMinimum s q := by
  unfold amountOutMinimum
  split
  · norm_num
  · have := amountOutMinimumRaw_nonneg h1.le q
    omega

/-- C5, witness at `s = 0.05`, `q = 0` (the raw product is `0`, the guard
clamps it to `1`). -/
theorem minimumOut_submitted_at_least_one_witness :
    1 ≤ amountOutMinimum ((5 : ℚ) / 100) 0 :=
  minimumOut_submitted_at_least_one ((5 : ℚ) / 100) 0 (by norm_num) (by norm_num)

/-- C7: for a quoted output of `150.25` tokens of a 6-decimal output token
(`150250000` smallest units) and a `5%` slippage tolerance, the computed
minimum-output bound is `142737500` smallest units, i.e. `142.7375` tokens,
both before and after the zero guard. -/
theorem minimumOut_example_150_25 :
    amountOutMinimumRaw ((5 : ℚ) / 100) 150250000 = 142737500 ∧
      amountOutMinimum ((5 : ℚ) / 100) 150250000 = 142737500 := by
  have hraw : amountOutMinimumRaw ((5 : ℚ) / 100) 150250000 = 142737500 := by
    unfold amountOutMinimumRaw slippageFactor
    norm_num
    rfl
  refine ⟨hraw, ?_⟩
  unfold amountOutMinimum
  rw [hraw]
  norm_num

/-- C8: in the older variant the slippage factor is the BigInt quotient
`⌊(1-s)*1000⌋ / 1000`, which is `0` for every tolerance `s` with
`0 < s ≤ 1`; hence `amountOutMinimum` is `0` for every quoted amount and the
swap is submitted with no slippage protection. -/
theorem old_variant_minimumOut_zero (s : ℚ) (q : ℕ) (h0 : 0 < s) (h1 : s ≤ 1) :
    amountOutMinimumOld s q = 0 := by
  have hfac : slippageFactorOld s = 0 := by
    unfold slippageFactorOld
    have hlt : (⌊(1 - s) * 1000⌋ : ℤ) < 1000 := slippageFactor_lt_1000 h0
    have hge : (0 : ℤ) ≤ ⌊(1 - s) * 1000⌋ := slippageFactor_nonneg h1
    exact Int.tdiv_eq_zero_of_lt hge hlt
  unfold amountOutMinimumOld
  rw [hfac]
  simp

/-- C8, witness at the configured tolerance `s = 0.05` and quoted amount
`150250000`. -/
theorem old_variant_minimumOut_zero_witness :
    amountOutMinimumOld ((5 : ℚ) / 100) 150250000 = 0 :=
  old_variant_minimumOut_zero ((5 : ℚ) / 100) 150250000 (by norm_num) (by norm_num)

/-- C2: `getPoolInfo` returns the first of the six lookups (tiers 500, 3000,
10000 with `(tokenIn, tokenOut)`, then the same tiers reversed) whose result
is not the zero address; it fails with `NoPoolFound` exactly when all six
lookups return the zero address; and it never returns the zero address as a
found pool. -/
theorem poolLookup_first_nonzero_wins (factory : Address → Address → ℕ → Address)
    (tokenIn tokenOut : Address) :
    (getPoolInfo factory tokenIn tokenOut =
      match (sixLookups factory tokenIn tokenOut).find? (fun p => p.1 != zeroAddress) with
      | some found => Except.ok found
      | none => Except.error SwapError.NoPoolFound) ∧
    (getPoolInfo factory tokenIn tokenOut = Except.error SwapError.NoPoolFound ↔
      ∀ fee ∈ feeTiers, factory tokenIn tokenOut fee = zeroAddress ∧
        factory tokenOut tokenIn fee = zeroAddress) ∧
    (∀ address fee, getPoolInfo factory tokenIn tokenOut = Except.ok (address, fee) →
      address ≠ zeroAddress) := by
  refine ⟨?_, ?_, ?_⟩ <;>
    simp only [getPoolInfo, findPoolIn, sixLookups, feeTiers, zeroAddress, List.map,
      List.find?, List.append_eq, List.cons_append, List.nil_append, List.mem_cons,
      List.not_mem_nil, or_false, bne_iff_ne, ne_eq, ite_not] <;>
    split_ifs <;> simp_all [bne_zero_of_ne, bne_zero_of_eq]

/-- C6: with the factory modelled as an arbitrary fixed function of
`(address, address, fee)` — the model named by the claim — pool lookup is
not order-independent: for the concrete factory state `asymFactory`, calling
with `(10, 20)` finds pool `1` at tier `3000` while calling with `(20, 10)`
finds pool `2` at tier `500`. -/
theorem poolLookup_order_dependent_counterexample :
    getPoolInfo asymFactory 10 20 = Except.ok (1, 3000) ∧
      getPoolInfo asymFactory 20 10 = Except.ok (2, 500) ∧
      getPoolInfo asymFactory 10 20 ≠ getPoolInfo asymFactory 20 10 := by
  have h1 : getPoolInfo asymFactory 10 20 = Except.ok (1, 3000) := rfl
  have h2 : getPoolInfo asymFactory 20 10 = Except.ok (2, 500) := rfl
  refine ⟨h1, h2, ?_⟩
  rw [h1, h2]
  simp

/-- C6 (amended): when the factory state is symmetric in its two address
arguments — as a real Uniswap-V3 factory is, `getPool(a,b,f) = getPool(b,a,f)`
— `getPoolInfo` resolves the same unordered pair to the same pool address
and fee tier regardless of call order. -/
theorem poolLookup_order_independent_of_symm (factory : Address → Address → ℕ → Address)
    (hsym : ∀ a b fee, factory a b fee = factory b a fee) (tokenIn tokenOut : Address) :
    getPoolInfo factory tokenIn tokenOut = getPoolInfo factory tokenOut tokenIn := by
  have h : findPoolIn factory tokenIn tokenOut feeTiers =
      findPoolIn factory tokenOut tokenIn feeTiers := by
    simp only [findPoolIn, feeTiers, hsym tokenIn tokenOut]
  unfold getPoolInfo
  rw [h]

/-- C6 (amended), witness at the symmetric factory `symFactory` and the
pair `(3, 5)`. -/
theorem poolLookup_order_independent_witness :
    getPoolInfo symFactory 3 5 = getPoolInfo symFactory 5 3 :=
  poolLookup_order_independent_of_symm symFactory
    (fun a b fee => congrArg (· + fee) (Nat.mul_comm a b)) 3 5

/-- C3: when the wallet's token balance is strictly below the required
amount, `approveToken` fails with `InsufficientBalance`, performs no
allowance read and submits no approval transaction, and leaves the chain
state unchanged. -/
theorem approve_insufficient_balance_no_tx (amount : ℕ) (st : TokenState)
    (h : st.balance < amount) :
    (approveToken amount st).1 = Except.error SwapError.InsufficientBalance ∧
      Event.allowanceCheck ∉ (approveToken amount st).2.2 ∧
      Event.approvalTx ∉ (approveToken amount st).2.2 ∧
      (approveToken amount st).2.1 = st := by
  simp [approveToken, h]

/-- C3, witness: a wallet with balance `0` asked to approve `1` unit. -/
theorem approve_insufficient_balance_no_tx_witness :
    (approveToken 1 ⟨0, 0⟩).1 = Except.error SwapError.InsufficientBalance ∧
      Event.allowanceCheck ∉ (approveToken 1 ⟨0, 0⟩).2.2 ∧
      Event.approvalTx ∉ (approveToken 1 ⟨0, 0⟩).2.2 ∧
      (approveToken 1 ⟨0, 0⟩).2.1 = ⟨0, 0⟩ :=
  approve_insufficient_balance_no_tx 1 ⟨0, 0⟩ (by decide)

/-- C4: the approver is idempotent.  For every required amount and starting
state with sufficient balance, two successive invocations with the same
amount submit at most one approval transaction: the second invocation reads
an allowance at least equal to the amount and returns without submitting. -/
theorem approve_idempotent (amount : ℕ) (st : TokenState) (h : amount ≤ st.balance) :
    approvalTxCount (approveToken amount st).2.2 +
      approvalTxCount (approveToken amount (approveToken amount st).2.1).2.2 ≤ 1 := by
  have hnb : ¬ st.balance < amount := not_lt.mpr h
  by_cases hal : amount ≤ st.allowance
  · simp [approveToken, hnb, hal, approvalTxCount]
  · simp [approveToken, hnb, hal, approvalTxCount]

/-- C4, witness: amount `5`, balance `10`, starting allowance `0`. -/
theorem approve_idempotent_witness :
    approvalTxCount (approveToken 5 ⟨10, 0⟩).2.2 +
      approvalTxCount (approveToken 5 (approveToken 5 ⟨10, 0⟩).2.1).2.2 ≤ 1 :=
  approve_idempotent 5 ⟨10, 0⟩ (by decide)

/-- C10: every quote request and every swap submission of the fuller
variant sets the price-limit sentinel `sqrtPriceLimitX96` to `0`: the
exact-input quote parameters (lines 610-616), the exact-input swap
parameters (lines 641-650), and both the quote and swap parameters of the
exact-output fallback (lines 392-399 and 415-424). -/
theorem sqrtPriceLimit_always_zero (tokenIn tokenOut : Address) (fee : ℕ)
    (recipient : Address) (now amountIn amountOut amountInMaximum : ℕ)
    (amountOutMin : ℤ) :
    (mkQuoteParams tokenIn tokenOut fee amountIn).sqrtPriceLimitX96 = 0 ∧
      (mkSwapParams tokenIn tokenOut fee recipient now amountIn
        amountOutMin).sqrtPriceLimitX96 = 0 ∧
      (mkExactOutputQuoteParams tokenIn tokenOut fee recipient
        amountOut).sqrtPriceLimitX96 = 0 ∧
      (mkExactOutputSwapParams tokenIn tokenOut fee recipient now amountOut
        amountInMaximum).sqrtPriceLimitX96 = 0 :=
  ⟨rfl, rfl, rfl, rfl⟩

/-- C9: a `NoPoolFound` failure is not atomic with respect to chain state.
Whenever the wallet's balance covers the swap amount, the starting allowance
does not, and the factory has no pool for the pair at any tier in either
order, `main` terminates with `NoPoolFound` having already submitted (and
confirmed) an on-chain approval transaction: the approval event precedes the
pool lookup in the trace, and the allowance is already raised to the swap
amount. -/
theorem noPoolFound_after_approval (ch : Chain) (tokenInAddr tokenOutAddr recipient : Address)
    (now swapAmount : ℕ) (s : ℚ) (st : TokenState) (tokenIn tokenOut : TokenDescriptor)
    (hin : ch.tokenInfo tokenInAddr = some tokenIn)
    (hout : ch.tokenInfo tokenOutAddr = some tokenOut)
    (hbal : swapAmount * 10 ^ tokenIn.decimals ≤ st.balance)
    (hallow : st.allowance < swapAmount * 10 ^ tokenIn.decimals)
    (hfac : ∀ a b fee, ch.factory a b fee = zeroAddress) :
    mainRun ch tokenInAddr tokenOutAddr recipient now swapAmount s st =
      (Except.error SwapError.NoPoolFound,
        { st with allowance := swapAmount * 10 ^ tokenIn.decimals },
        [Event.metadataFetch, Event.metadataFetch, Event.balancesRead, Event.balanceCheck,
          Event.allowanceCheck, Event.approvalTx, Event.poolLookup]) := by
  have hg : getPoolInfo ch.factory tokenInAddr tokenOutAddr =
      Except.error SwapError.NoPoolFound := by
    simp [getPoolInfo, findPoolIn, feeTiers, hfac]
  have hnb : ¬ st.balance < swapAmount * 10 ^ tokenIn.decimals := not_lt.mpr hbal
  have hna : ¬ swapAmount * 10 ^ tokenIn.decimals ≤ st.allowance := not_le.mpr hallow
  unfold mainRun
  rw [hin, hout]
  simp [approveToken, hnb, hna, hg]

/-- C9, witness: on `noPoolChain`, a wallet with balance `10000000` and
allowance `0` swapping `10` tokens of `6` decimals ends with `NoPoolFound`
after having submitted the approval transaction. -/
theorem noPoolFound_after_approval_witness :
    mainRun noPoolChain 1 2 3 0 10 ((5 : ℚ) / 100) ⟨10000000, 0⟩ =
      (Except.error SwapError.NoPoolFound, ⟨10000000, 10000000⟩,
        [Event.metadataFetch, Event.metadataFetch, Event.balancesRead, Event.balanceCheck,
          Event.allowanceCheck, Event.approvalTx, Event.poolLookup]) :=
  noPoolFound_after_approval noPoolChain 1 2 3 0 10 ((5 : ℚ) / 100) ⟨10000000, 0⟩
    { chainId := 11155111, address := 1, decimals := 6 }
    { chainId := 11155111, address := 2, decimals := 6 }
    rfl rfl (by norm_num) (by norm_num) (fun _ _ _ => rfl)

end SwapScript
